import Mathlib

/-!
Verification development for the currency-coercion pipeline of
`janitor/functions.py` (`currency_column_to_numeric` and its helpers
`_clean_accounting_column`, `_currency_column_to_numeric`,
`_replace_empty_string_with_none`,
`_replace_original_empty_string_with_none`, together with the pandas
primitives they use: `Series.apply`, `Series.fillna`, `DataFrame.loc`
with a boolean mask, `DataFrame.assign`, `pd.to_numeric`).

Modelling choices:
* Python cell values are a sum type `PyVal`; floats are modelled as
  rationals (every literal in the relevant code paths is an exact
  decimal).
* Raising code returns `Except PyError _`; `pandas.Series.apply`
  evaluates left to right and propagates the first exception, which is
  `mapE` below.
* The one in-place mutation in the source (`df.loc[:, col_name] = ...`
  in the accounting branch) is captured by returning, next to the
  call's result, the post-call state of the caller's dataframe object.
-/

/-- Python runtime values that can appear as cells or configuration
values in the coercion pipeline: strings, ints, floats (as `ℚ`), and
`None` (also standing for the float `NaN` missing marker produced by
`pd.to_numeric(None)`). -/
inductive PyVal where
  | vStr : String → PyVal
  | vInt : Int → PyVal
  | vFloat : ℚ → PyVal
  | vNone : PyVal
deriving DecidableEq, Repr

/-- Python exceptions raised by the modelled code: `TypeError` (from
`check` and from `len()` on a non-sized value), `ValueError` (from
`float()` / `pd.to_numeric` on an unparseable string), `KeyError`
(from `df[col_name]` on a missing column; the spec's name for this is
`MissingColumnError`), and `AttributeError` (from calling a string
method on a non-string). Each carries the offending text. -/
inductive PyError where
  | typeError : String → PyError
  | valueError : String → PyError
  | keyError : String → PyError
  | attrError : String → PyError
deriving DecidableEq, Repr

/-- The `cast_non_numeric` argument: `None` (the default), a dict with
string keys, or some other Python value, of which only the truthiness
is relevant (the code tests `if cast_non_numeric:` before touching
it). -/
inductive CastArg where
  | noneA : CastArg
  | dict : List (String × PyVal) → CastArg
  | other : Bool → CastArg
deriving DecidableEq, Repr

/-- Python truthiness of the `cast_non_numeric` argument: `None` is
falsy, a dict is truthy iff nonempty, other values carry their
truthiness. -/
def CastArg.truthy : CastArg → Bool
  | .noneA => false
  | .dict d => !d.isEmpty
  | .other b => b

/-- Models `isinstance(value, dict)` on the `cast_non_numeric`
argument. -/
def CastArg.isDict : CastArg → Bool
  | .dict _ => true
  | _ => false

/-- Models `isinstance(x, int)`. -/
def isInstInt : PyVal → Bool
  | .vInt _ => true
  | _ => false

/-- Models `isinstance(x, float)`. -/
def isInstFloat : PyVal → Bool
  | .vFloat _ => true
  | _ => false

/-- Models Python `str.strip()` with no arguments: remove leading and
trailing whitespace. -/
def pyStrip (s : String) : String :=
  String.mk (((s.data.dropWhile Char.isWhitespace).reverse.dropWhile
    Char.isWhitespace).reverse)

/-- Models Python `str.replace(c, "")` for a one-character pattern:
drop every occurrence of the character. -/
def removeChar (c : Char) (s : String) : String :=
  String.mk (s.data.filter (fun d => d != c))

/-- Numeric value of a digit string, most significant digit first. -/
def digitsVal (l : List Char) : Nat :=
  l.foldl (fun a c => a * 10 + (c.toNat - 48)) 0

/-- Unsigned part of Python `float(str)` / `pd.to_numeric` string
parsing: an optional integer part, an optional single decimal point
with an optional fractional part, at least one digit overall, nothing
else. (Exponents, underscores, `inf`/`nan` never occur in the strings
the pipeline produces.) -/
def parseFloatChars (l : List Char) : Option ℚ :=
  let ip := l.takeWhile (fun c => c != '.')
  let rest := l.dropWhile (fun c => c != '.')
  match rest with
  | [] =>
    if !ip.isEmpty && ip.all Char.isDigit then some (mkRat (digitsVal ip) 1)
    else none
  | _ :: fp =>
    if (!ip.isEmpty || !fp.isEmpty) && ip.all Char.isDigit && fp.all Char.isDigit then
      some (mkRat (digitsVal ip * 10 ^ fp.length + digitsVal fp) (10 ^ fp.length))
    else none

/-- Models Python `float(str)` (and the string case of
`pd.to_numeric`): strip whitespace, then an optional sign followed by
a decimal numeral. Returns `none` where Python raises `ValueError`. -/
def parseFloat (s : String) : Option ℚ :=
  match (pyStrip s).data with
  | '-' :: rest => (parseFloatChars rest).map (fun q => -q)
  | '+' :: rest => parseFloatChars rest
  | l => parseFloatChars l

/-- Models `pandas.Series.apply f` for a raising `f`: apply cell by
cell, left to right, propagating the first exception. -/
def mapE {α : Type} (f : α → Except PyError PyVal) : List α → Except PyError (List PyVal)
  | [] => .ok []
  | a :: l =>
    match f a with
    | .error e => .error e
    | .ok b =>
      match mapE f l with
      | .error e => .error e
      | .ok bs => .ok (b :: bs)

/-- Boolean-mask row selection on one column, as in `df.loc[mask, :]`
and in the index alignment performed by `df.assign` after rows were
dropped: keep exactly the positions where the mask is `true`. -/
def maskFilter : List Bool → List PyVal → List PyVal
  | true :: m, a :: l => a :: maskFilter m l
  | false :: m, _ :: l => maskFilter m l
  | _, _ => []

/-- A dataframe: columns with unique string names, each an ordered
list of cells; all columns have one cell per row. -/
structure DF where
  cols : List (String × List PyVal)
deriving DecidableEq, Repr

/-- Models `df[col_name]`: look the column up by name. -/
def DF.getCol (df : DF) (name : String) : Option (List PyVal) :=
  List.lookup name df.cols

/-- Models `df.assign(**{name: vals})` (and the accounting branch's
`df.loc[:, name] = vals`) for a column name that exists: replace that
column's cells. -/
def DF.setCol (df : DF) (name : String) (vals : List PyVal) : DF :=
  ⟨df.cols.map (fun p => if p.1 == name then (p.1, vals) else p)⟩

/-- Models `df.loc[mask, :]`: keep the rows selected by the mask, in
order, in every column. -/
def DF.maskRows (df : DF) (mask : List Bool) : DF :=
  ⟨df.cols.map (fun p => (p.1, maskFilter mask p.2))⟩

/-- Embeds `janitor.functions._clean_accounting_column`: strip
whitespace, drop commas, drop `)`, turn `(` into `-`, map a bare `-`
to `0.0`, and parse the remainder with `float()` (raising
`ValueError` on failure; `AttributeError` on a non-string cell, from
`x.strip()`). Currency symbols are not removed. -/
def _clean_accounting_column (x : PyVal) : Except PyError PyVal :=
  match x with
  | .vStr s =>
    let y1 := pyStrip s
    let y2 := removeChar ',' y1
    let y3 := removeChar ')' y2
    let y4 := String.mk (y3.data.map (fun c => if c == '(' then '-' else c))
    if y4 == "-" then .ok (.vFloat 0)
    else
      match parseFloat y4 with
      | some q => .ok (.vFloat q)
      | none => .error (.valueError y4)
  | _ => .error (.attrError "strip")

/-- The `acceptable_currency_characters` set of
`janitor.functions._currency_column_to_numeric`: minus sign, period,
and the ten digits. -/
def acceptableCurrencyCharacters : List Char :=
  ['-', '.', '1', '2', '3', '4', '5', '6', '7', '8', '9', '0']

/-- The `"".join(i for i in x if i in acceptable_currency_characters)`
step of `_currency_column_to_numeric`: keep only acceptable
characters, in order. -/
def keepAcceptableChars (s : String) : String :=
  String.mk (s.data.filter (fun c => acceptableCurrencyCharacters.contains c))

/-- Embeds `janitor.functions._currency_column_to_numeric`. On a
string cell: an empty cell (`len(x) == 0`) becomes the reserved
sentinel string `"ORIGINAL_NA"`; otherwise, when `cast_non_numeric`
is truthy and the cell is one of its keys, `check` validates the
mapped value as `int`/`float` (raising `TypeError` otherwise) and the
value is returned; otherwise the cell is filtered down to the
acceptable currency characters. On a non-string cell `len(x)` raises
`TypeError`; `.keys()` on a truthy non-dict raises
`AttributeError`. -/
def _currency_column_to_numeric (x : PyVal) (cast_non_numeric : CastArg) :
    Except PyError PyVal :=
  match x with
  | .vStr s =>
    if s == "" then .ok (.vStr "ORIGINAL_NA")
    else
      match cast_non_numeric with
      | .dict d =>
        if d.isEmpty then .ok (.vStr (keepAcceptableChars s))
        else
          match List.lookup s d with
          | some v =>
            if isInstInt v || isInstFloat v then .ok v
            else .error (.typeError "cast value should be one of int, float")
          | none => .ok (.vStr (keepAcceptableChars s))
      | .other b =>
        if b then .error (.attrError "keys")
        else .ok (.vStr (keepAcceptableChars s))
      | .noneA => .ok (.vStr (keepAcceptableChars s))
  | _ => .error (.typeError "object has no len")

/-- Embeds `janitor.functions._replace_empty_string_with_none`: ints
and floats pass through, a string passes through iff nonempty (the
empty string falls through to an implicit `None`); `len(None)` raises
`TypeError`. -/
def _replace_empty_string_with_none (x : PyVal) : Except PyError PyVal :=
  match x with
  | .vInt _ => .ok x
  | .vFloat _ => .ok x
  | .vStr s => if s == "" then .ok .vNone else .ok x
  | .vNone => .error (.typeError "NoneType has no len")

/-- Embeds `janitor.functions._replace_original_empty_string_with_none`:
everything but the sentinel string `"ORIGINAL_NA"` passes through;
the sentinel falls through to an implicit `None`. -/
def _replace_original_empty_string_with_none (x : PyVal) : PyVal :=
  if x == .vStr "ORIGINAL_NA" then .vNone else x

/-- Models `pd.to_numeric` on one cell: parse strings (raising
`ValueError` on failure), pass numeric values through (ints become
part of the resulting float column), keep `None` as the missing
marker `NaN`. -/
def to_numeric_cell (x : PyVal) : Except PyError PyVal :=
  match x with
  | .vStr s =>
    match parseFloat s with
    | some q => .ok (.vFloat q)
    | none => .error (.valueError s)
  | .vInt n => .ok (.vFloat (n : ℚ))
  | .vFloat q => .ok (.vFloat q)
  | .vNone => .ok .vNone

/-- Tail of `currency_column_to_numeric` after the optional fill: the
`_replace_original_empty_string_with_none` pass, `pd.to_numeric`, and
the `df.assign` whose index alignment keeps only the rows retained by
the removal mask. `df0` is the caller's dataframe (returned unchanged
as the post-call state: this branch never mutates in place). -/
def currencyFinish (df0 dfKept : DF) (col_name : String) (mask : List Bool)
    (remove_non_numeric : Bool) (series : List PyVal) :
    Except PyError DF × DF :=
  let series3 := series.map _replace_original_empty_string_with_none
  match mapE to_numeric_cell series3 with
  | .error e => (.error e, df0)
  | .ok nums =>
    (.ok (DF.setCol dfKept col_name
      (if remove_non_numeric then maskFilter mask nums else nums)), df0)

/-- Embeds `janitor.functions.currency_column_to_numeric`. The first
component is the call's outcome (result dataframe or raised
exception); the second is the post-call state of the caller's
dataframe object — equal to the input except on the accounting
branch's successful in-place assignment. Steps, in source order:
column lookup (`KeyError` if absent); the accounting branch (apply
`_clean_accounting_column`, assign in place, return); the
`check(cast_non_numeric, [dict])` guard (run only when the argument
is truthy); the per-cell `_currency_column_to_numeric` pass; the
optional row removal by the mask `column_series != ""`;
`_replace_empty_string_with_none`; the optional
`check(fill_all_non_numeric, [int, float])` and `fillna`; then
`currencyFinish`. -/
def currency_column_to_numeric (df : DF) (col_name : String)
    (type : Option String) (cast_non_numeric : CastArg)
    (fill_all_non_numeric : Option PyVal) (remove_non_numeric : Bool) :
    Except PyError DF × DF :=
  match DF.getCol df col_name with
  | none => (.error (.keyError col_name), df)
  | some column_series =>
    if type == some "accounting" then
      match mapE _clean_accounting_column column_series with
      | .error e => (.error e, df)
      | .ok newcol =>
        let df2 := DF.setCol df col_name newcol
        (.ok df2, df2)
    else
      if cast_non_numeric.truthy && !cast_non_numeric.isDict then
        (.error (.typeError "cast_non_numeric should be one of dict"), df)
      else
        match mapE (fun x => _currency_column_to_numeric x cast_non_numeric)
            column_series with
        | .error e => (.error e, df)
        | .ok series1 =>
          let mask := series1.map (fun c => !(c == PyVal.vStr ""))
          let dfKept := if remove_non_numeric then DF.maskRows df mask else df
          match mapE _replace_empty_string_with_none series1 with
          | .error e => (.error e, df)
          | .ok series2 =>
            match fill_all_non_numeric with
            | some v =>
              if isInstInt v || isInstFloat v then
                currencyFinish df dfKept col_name mask remove_non_numeric
                  (series2.map (fun c => if c == PyVal.vNone then v else c))
              else
                (.error (.typeError "fill_all_non_numeric should be one of int, float"), df)
            | none =>
              currencyFinish df dfKept col_name mask remove_non_numeric series2

/-- Reference predicate for the row-removal mask: a row survives
`remove_non_numeric=True` iff its original cell was the empty string
(the sentinel, which compares unequal to `""`) or its candidate string
after character filtering is nonempty. -/
def removeKeep (s : String) : Bool :=
  (s == "") || !(keepAcceptableChars s == "")

/-- Reference per-cell output for standard mode without cast/fill: an
originally empty cell becomes the missing marker; otherwise the
filtered candidate is parsed, raising `ValueError` when it does not
form a numeral. -/
def removedModeCell (s : String) : Except PyError PyVal :=
  if s == "" then .ok .vNone
  else
    match parseFloat (keepAcceptableChars s) with
    | some q => .ok (.vFloat q)
    | none => .error (.valueError (keepAcceptableChars s))

/-- The float a numeric Python value contributes to the resulting
numeric column (`pd.to_numeric` turns ints into the column's float
values). -/
def pyNumFloat (v : PyVal) : PyVal :=
  match v with
  | .vInt n => .vFloat (n : ℚ)
  | w => w

/-- Reference per-cell output for standard mode with a numeric
`fill_all_non_numeric` value `v` and no cast: an originally empty
cell still becomes the missing marker; a coercion failure (nonempty
cell whose candidate is empty) becomes `v`; otherwise the candidate
is parsed. -/
def fillModeCell (v : PyVal) (s : String) : Except PyError PyVal :=
  if s == "" then .ok .vNone
  else if keepAcceptableChars s == "" then .ok (pyNumFloat v)
  else
    match parseFloat (keepAcceptableChars s) with
    | some q => .ok (.vFloat q)
    | none => .error (.valueError (keepAcceptableChars s))

/-- Modelled from the spec: representative currency-symbol characters,
used only to state the character-class hypothesis of the spec's
"digits, minus signs, periods, currency symbols, and commas"
property (the source itself keeps acceptable characters and discards
everything else, whatever it is). -/
def currencySymbolChars : List Char := ['$', '€', '£', '¥', '₹', '₩', '¢']

/-- The cell state after the `_currency_column_to_numeric` pass in
standard mode with no applicable cast entry. -/
def step1Cell (s : String) : PyVal :=
  if s == "" then .vStr "ORIGINAL_NA" else .vStr (keepAcceptableChars s)

/-- The cell state after `_replace_empty_string_with_none`. -/
def step12Cell (s : String) : PyVal :=
  if s == "" then .vStr "ORIGINAL_NA"
  else if keepAcceptableChars s == "" then .vNone
  else .vStr (keepAcceptableChars s)

/-- The cell state after `_replace_original_empty_string_with_none`
when no fill was requested. -/
def step123Cell (s : String) : PyVal :=
  if s == "" then .vNone
  else if keepAcceptableChars s == "" then .vNone
  else .vStr (keepAcceptableChars s)

deriving instance DecidableEq for Except

/-- The filtered candidate can never equal the reserved sentinel: the
sentinel contains characters outside the acceptable set. -/
theorem keep_ne_sentinel (s : String) : keepAcceptableChars s ≠ "ORIGINAL_NA" := by
  intro h
  have hd : (s.data.filter (fun c => acceptableCurrencyCharacters.contains c))
      = "ORIGINAL_NA".data := by
    have h2 := congrArg String.data h
    simpa [keepAcceptableChars] using h2
  have hmem : 'O' ∈ s.data.filter (fun c => acceptableCurrencyCharacters.contains c) := by
    rw [hd]; decide
  have hacc := (List.mem_filter.mp hmem).2
  simp [acceptableCurrencyCharacters] at hacc

/-- On a string cell with no cast mapping, the per-cell coercion step
returns `step1Cell` and never raises. -/
theorem ccn_str_noneA (s : String) :
    _currency_column_to_numeric (.vStr s) .noneA = .ok (step1Cell s) := by
  simp only [_currency_column_to_numeric, step1Cell]
  split <;> rfl

/-- `_replace_empty_string_with_none` sends a `step1Cell` state to the
corresponding `step12Cell` state and never raises. -/
theorem repl_empty_step1 (s : String) :
    _replace_empty_string_with_none (step1Cell s) = .ok (step12Cell s) := by
  by_cases hs : s = ""
  · subst hs; rfl
  · have hs2 : (s == "") = false := by simpa using hs
    by_cases hk : keepAcceptableChars s = ""
    · simp [step1Cell, step12Cell, _replace_empty_string_with_none, hs2, hk]
    · have hk2 : (keepAcceptableChars s == "") = false := by simpa using hk
      simp [step1Cell, step12Cell, _replace_empty_string_with_none, hs2, hk2]

/-- `_replace_original_empty_string_with_none` sends a `step12Cell`
state to the corresponding `step123Cell` state. -/
theorem repl_orig_step12 (s : String) :
    _replace_original_empty_string_with_none (step12Cell s) = step123Cell s := by
  by_cases hs : s = ""
  · subst hs; rfl
  · have hs2 : (s == "") = false := by simpa using hs
    by_cases hk : keepAcceptableChars s = ""
    · simp [step12Cell, step123Cell, _replace_original_empty_string_with_none, hs2, hk]
    · have hk2 : (keepAcceptableChars s == "") = false := by simpa using hk
      have hsent : (PyVal.vStr (keepAcceptableChars s) == PyVal.vStr "ORIGINAL_NA") = false := by
        simp [keep_ne_sentinel s]
      simp [step12Cell, step123Cell, _replace_original_empty_string_with_none, hs2, hk2, hsent]

/-- A `mapE` pass whose body succeeds pointwise is the corresponding
pure map. -/
theorem mapE_ok_of_map {α : Type} (g : α → PyVal) (f : PyVal → Except PyError PyVal)
    (h : α → PyVal) (hp : ∀ a, f (g a) = .ok (h a)) (l : List α) :
    mapE f (l.map g) = .ok (l.map h) := by
  induction l with
  | nil => rfl
  | cons a t ih => simp [mapE, hp, ih]

/-- The removal mask computed by `currency_column_to_numeric` agrees
pointwise with the reference predicate `removeKeep`. -/
theorem mask_step1 (s : String) :
    (!(step1Cell s == PyVal.vStr "")) = removeKeep s := by
  by_cases hs : s = ""
  · subst hs; rfl
  · have hs2 : (s == "") = false := by simpa using hs
    by_cases hk : keepAcceptableChars s = ""
    · simp [step1Cell, removeKeep, hs2, hk]
    · have hk2 : (keepAcceptableChars s == "") = false := by simpa using hk
      simp [step1Cell, removeKeep, hs2, hk2, hk]

/-- After the three cell passes, a cell the mask drops is exactly the
missing marker. -/
theorem step123_of_not_keep {s : String} (h : removeKeep s = false) :
    step123Cell s = PyVal.vNone := by
  have h1 : ¬ s = "" := by
    intro hs
    rw [hs] at h
    simp [removeKeep] at h
  have h2 : keepAcceptableChars s = "" := by
    by_contra hk
    have hs2 : (s == "") = false := by simpa using h1
    have hk2 : (keepAcceptableChars s == "") = false := by simpa using hk
    simp [removeKeep, hs2, hk2] at h
  simp [step123Cell, h1, h2]

/-- For a cell the mask keeps, the final numeric conversion agrees
with the reference per-cell output. -/
theorem to_numeric_step123_of_keep {s : String} (h : removeKeep s = true) :
    to_numeric_cell (step123Cell s) = removedModeCell s := by
  by_cases hs : s = ""
  · subst hs; rfl
  · have hs2 : (s == "") = false := by simpa using hs
    have hk : ¬ keepAcceptableChars s = "" := by
      intro hk
      have hk2 : (keepAcceptableChars s == "") = true := by simpa using hk
      simp [removeKeep, hs2, hk2] at h
    simp [step123Cell, to_numeric_cell, removedModeCell, hs, hk, hs2]

/-- A `mapE` pass over a mapped list with a pointwise-equal body. -/
theorem mapE_map_eq {α : Type} (g : α → PyVal) (f : PyVal → Except PyError PyVal)
    (h : α → Except PyError PyVal) (hp : ∀ a, f (g a) = h a) (l : List α) :
    mapE f (l.map g) = mapE h l := by
  induction l with
  | nil => rfl
  | cons a t ih => simp only [List.map_cons, mapE, hp, ih]

/-- Core alignment for the removal path: running `pd.to_numeric` over
the whole post-pass column and then selecting the retained rows (as
`df.assign`'s index alignment does) is the same as evaluating the
reference per-cell output over exactly the retained cells, in order
(removed cells are `None` by then and can neither raise nor appear). -/
theorem removal_align (cells : List String) :
    (match mapE to_numeric_cell (cells.map step123Cell) with
     | .ok nums => Except.ok (maskFilter (cells.map removeKeep) nums)
     | .error e => Except.error e)
    = mapE removedModeCell (cells.filter removeKeep) := by
  induction cells with
  | nil => rfl
  | cons s t ih =>
    by_cases hk : removeKeep s = true
    · have hcell := to_numeric_step123_of_keep hk
      simp only [List.map_cons, List.filter_cons, hk, if_true, mapE, hcell]
      cases hr : removedModeCell s with
      | error e => simp
      | ok b =>
        cases hm : mapE to_numeric_cell (t.map step123Cell) with
        | error e =>
          rw [hm] at ih
          simp only at ih
          simp [← ih]
        | ok nums =>
          rw [hm] at ih
          simp only at ih
          simp [← ih, maskFilter]
    · have hk2 : removeKeep s = false := by simpa using hk
      have hcell : step123Cell s = PyVal.vNone := step123_of_not_keep hk2
      simp only [List.map_cons, List.filter_cons, hk2, Bool.false_eq_true, if_false,
        mapE, hcell, to_numeric_cell]
      cases hm : mapE to_numeric_cell (t.map step123Cell) with
      | error e =>
        rw [hm] at ih
        simp only at ih
        simpa using ih
      | ok nums =>
        rw [hm] at ih
        simp only at ih
        simpa [maskFilter] using ih

/-- Unfolds the standard-mode call with no cast, no fill and
`remove_non_numeric=True` on a single-column dataframe of strings into
the composed per-cell passes plus the removal mask. -/
theorem call_std_removal (cells : List String) :
    currency_column_to_numeric ⟨[("a", cells.map PyVal.vStr)]⟩ "a" none .noneA none true
    = (match mapE to_numeric_cell (cells.map step123Cell) with
       | .ok nums => Except.ok (⟨[("a", maskFilter (cells.map removeKeep) nums)]⟩ : DF)
       | .error e => Except.error e,
       ⟨[("a", cells.map PyVal.vStr)]⟩) := by
  have hget : DF.getCol ⟨[("a", cells.map PyVal.vStr)]⟩ "a" = some (cells.map PyVal.vStr) := by
    simp [DF.getCol, List.lookup]
  have h1 : mapE (fun x => _currency_column_to_numeric x .noneA) (cells.map PyVal.vStr)
      = .ok (cells.map step1Cell) :=
    mapE_ok_of_map _ _ _ (fun s => ccn_str_noneA s) cells
  have h2 : mapE _replace_empty_string_with_none (cells.map step1Cell)
      = .ok (cells.map step12Cell) :=
    mapE_ok_of_map _ _ _ repl_empty_step1 cells
  have hmask : (cells.map step1Cell).map (fun c => !(c == PyVal.vStr ""))
      = cells.map removeKeep := by
    rw [List.map_map]
    congr 1
    funext s
    exact mask_step1 s
  have h3 : (cells.map step12Cell).map _replace_original_empty_string_with_none
      = cells.map step123Cell := by
    rw [List.map_map]
    congr 1
    funext s
    exact repl_orig_step12 s
  simp only [currency_column_to_numeric, hget, h1, h2, hmask, currencyFinish, h3]
  cases hm : mapE to_numeric_cell (cells.map step123Cell) with
  | error e => simp [CastArg.truthy, CastArg.isDict]
  | ok nums => simp [CastArg.truthy, CastArg.isDict, DF.setCol, DF.maskRows]

/-- Points per-cell at the fill path: the composition of fillna and
the two replacement passes followed by `pd.to_numeric` agrees with
the reference `fillModeCell` for a numeric fill value. -/
theorem fill_cell (v : PyVal) (hv : (isInstInt v || isInstFloat v) = true) (s : String) :
    to_numeric_cell (_replace_original_empty_string_with_none
      (if step12Cell s == PyVal.vNone then v else step12Cell s)) = fillModeCell v s := by
  by_cases hs : s = ""
  · subst hs; rfl
  · have hs2 : (s == "") = false := by simpa using hs
    by_cases hkp : keepAcceptableChars s = ""
    · cases v with
      | vInt n =>
        simp [step12Cell, hs2, hkp, _replace_original_empty_string_with_none,
          to_numeric_cell, fillModeCell, pyNumFloat, hs]
      | vFloat q =>
        simp [step12Cell, hs2, hkp, _replace_original_empty_string_with_none,
          to_numeric_cell, fillModeCell, pyNumFloat, hs]
      | vStr s2 => simp [isInstInt, isInstFloat] at hv
      | vNone => simp [isInstInt, isInstFloat] at hv
    · have hk2 : (keepAcceptableChars s == "") = false := by simpa using hkp
      have hsent : (PyVal.vStr (keepAcceptableChars s) == PyVal.vStr "ORIGINAL_NA") = false := by
        simp [keep_ne_sentinel s]
      simp [step12Cell, hs2, hk2, hkp, _replace_original_empty_string_with_none,
        hsent, to_numeric_cell, fillModeCell, hs]

/-- C3 (confirmed): in standard mode with a numeric
`fill_all_non_numeric` scalar and no cast, each cell that failed to
coerce (nonempty original whose filtered candidate is empty) receives
the scalar, while each originally empty cell still becomes the
missing-value marker in the output, not the fill value: the call
equals the `fillModeCell` reference evaluated cell by cell. -/
theorem spec_c3_fill (cells : List String) (v : PyVal)
    (hv : (isInstInt v || isInstFloat v) = true) :
    currency_column_to_numeric ⟨[("a", cells.map PyVal.vStr)]⟩ "a" none .noneA (some v) false
    = (match mapE (fillModeCell v) cells with
       | .ok outs => Except.ok (⟨[("a", outs)]⟩ : DF)
       | .error e => Except.error e,
       ⟨[("a", cells.map PyVal.vStr)]⟩) := by
  have hget : DF.getCol ⟨[("a", cells.map PyVal.vStr)]⟩ "a" = some (cells.map PyVal.vStr) := by
    simp [DF.getCol, List.lookup]
  have h1 : mapE (fun x => _currency_column_to_numeric x .noneA) (cells.map PyVal.vStr)
      = .ok (cells.map step1Cell) :=
    mapE_ok_of_map _ _ _ (fun s => ccn_str_noneA s) cells
  have h2 : mapE _replace_empty_string_with_none (cells.map step1Cell)
      = .ok (cells.map step12Cell) :=
    mapE_ok_of_map _ _ _ repl_empty_step1 cells
  have h45 : mapE to_numeric_cell
      (((cells.map step12Cell).map (fun c => if c == PyVal.vNone then v else c)).map
        _replace_original_empty_string_with_none)
      = mapE (fillModeCell v) cells := by
    rw [List.map_map, List.map_map]
    exact mapE_map_eq _ _ _ (fun s => fill_cell v hv s) cells
  simp only [currency_column_to_numeric, hget, h1, h2, hv, currencyFinish, h45,
    CastArg.truthy, CastArg.isDict]
  cases hm : mapE (fillModeCell v) cells with
  | error e => simp
  | ok outs => simp [DF.setCol]

/-- C2 (confirmed): in standard mode with `remove_non_numeric=True`
and no cast, the rows dropped are exactly those whose original cell
was nonempty but filtered down to an empty candidate (the coercion
failures); originally empty cells are retained and come out as the
missing-value marker (`removedModeCell ""`), and the retained rows
keep their original relative order — the result column is the
reference per-cell output evaluated over `cells.filter removeKeep`
in order. -/
theorem spec_c2_remove (cells : List String) :
    currency_column_to_numeric ⟨[("a", cells.map PyVal.vStr)]⟩ "a" none .noneA none true
    = (match mapE removedModeCell (cells.filter removeKeep) with
       | .ok kept => Except.ok (⟨[("a", kept)]⟩ : DF)
       | .error e => Except.error e,
       ⟨[("a", cells.map PyVal.vStr)]⟩) := by
  rw [call_std_removal]
  have h := removal_align cells
  cases hm : mapE to_numeric_cell (cells.map step123Cell) with
  | error e =>
    rw [hm] at h
    simp only at h
    rw [← h]
  | ok nums =>
    rw [hm] at h
    simp only at h
    rw [← h]

/-- C3 witness: the docstring scenario with fill value 35 — failures
get 35.0, the originally empty cells stay the missing marker. -/
theorem spec_c3_fill_witness :
    (isInstInt (PyVal.vInt 35) || isInstFloat (PyVal.vInt 35)) = true ∧
    currency_column_to_numeric
      ⟨[("a", [PyVal.vStr "-$1.00", PyVal.vStr "", PyVal.vStr "REPAY",
        PyVal.vStr "$23.00", PyVal.vStr "", PyVal.vStr "Other Account"])]⟩
      "a" none .noneA (some (PyVal.vInt 35)) false
    = (.ok ⟨[("a", [PyVal.vFloat (-1), PyVal.vNone, PyVal.vFloat 35,
        PyVal.vFloat 23, PyVal.vNone, PyVal.vFloat 35])]⟩,
       ⟨[("a", [PyVal.vStr "-$1.00", PyVal.vStr "", PyVal.vStr "REPAY",
        PyVal.vStr "$23.00", PyVal.vStr "", PyVal.vStr "Other Account"])]⟩) :=
  ⟨rfl, (spec_c3_fill ["-$1.00", "", "REPAY", "$23.00", "", "Other Account"]
    (PyVal.vInt 35) rfl).trans (by decide)⟩

/-- C1 (confirmed): the end-to-end scenario — input
["-$1.00", "", "REPAY", "$23.00", "", "Other Account"],
cast_non_numeric={"REPAY": 22}, no fill, remove_non_numeric=False —
returns [-1.0, NaN, 22.0, 23.0, NaN, NaN] in order (the missing
marker standing for NaN), with the caller's dataframe unchanged. -/
theorem spec_c1_scenario :
    currency_column_to_numeric
      ⟨[("a", [PyVal.vStr "-$1.00", PyVal.vStr "", PyVal.vStr "REPAY",
        PyVal.vStr "$23.00", PyVal.vStr "", PyVal.vStr "Other Account"])]⟩
      "a" none (.dict [("REPAY", PyVal.vInt 22)]) none false
    = (.ok ⟨[("a", [PyVal.vFloat (-1), PyVal.vNone, PyVal.vFloat 22,
        PyVal.vFloat 23, PyVal.vNone, PyVal.vNone])]⟩,
       ⟨[("a", [PyVal.vStr "-$1.00", PyVal.vStr "", PyVal.vStr "REPAY",
        PyVal.vStr "$23.00", PyVal.vStr "", PyVal.vStr "Other Account"])]⟩) := by
  decide

/-- C4 counterexample: a call whose `cast_non_numeric` maps "REPAY"
to the non-numeric value "x" succeeds with no error at all when no
cell equals the key — refuting "for every call with a non-numeric
cast value a type error is raised immediately, before any row is
processed". -/
theorem spec_c4_cex :
    currency_column_to_numeric ⟨[("a", [PyVal.vStr "$1.00"])]⟩ "a" none
      (.dict [("REPAY", PyVal.vStr "x")]) none false
    = (.ok ⟨[("a", [PyVal.vFloat 1])]⟩, ⟨[("a", [PyVal.vStr "$1.00"])]⟩) := by
  decide

/-- C4 (corrected): a truthy non-mapping `cast_non_numeric` raises a
type error before any cell is processed (for every column); a
non-numeric cast value raises its type error only when some cell
equals the key, during per-cell processing; a non-numeric
`fill_all_non_numeric` raises its type error after the per-cell
coercion pass (here: for every all-string column, whose per-cell pass
cannot itself raise). -/
theorem spec_c4_amended :
    (∀ cells : List String,
      currency_column_to_numeric ⟨[("a", cells.map PyVal.vStr)]⟩ "a" none
        (.other true) none false
      = (.error (.typeError "cast_non_numeric should be one of dict"),
         ⟨[("a", cells.map PyVal.vStr)]⟩)) ∧
    (∀ (k : String) (v : PyVal), ¬ k = "" → (isInstInt v || isInstFloat v) = false →
      currency_column_to_numeric ⟨[("a", [PyVal.vStr k])]⟩ "a" none
        (.dict [(k, v)]) none false
      = (.error (.typeError "cast value should be one of int, float"),
         ⟨[("a", [PyVal.vStr k])]⟩)) ∧
    (∀ (cells : List String) (v : PyVal), (isInstInt v || isInstFloat v) = false →
      currency_column_to_numeric ⟨[("a", cells.map PyVal.vStr)]⟩ "a" none
        .noneA (some v) false
      = (.error (.typeError "fill_all_non_numeric should be one of int, float"),
         ⟨[("a", cells.map PyVal.vStr)]⟩)) := by
  refine ⟨?_, ?_, ?_⟩
  · intro cells
    have hget : DF.getCol ⟨[("a", cells.map PyVal.vStr)]⟩ "a"
        = some (cells.map PyVal.vStr) := by
      simp [DF.getCol, List.lookup]
    simp [currency_column_to_numeric, hget, CastArg.truthy, CastArg.isDict]
  · intro k v hk hv
    have hk2 : (k == "") = false := by simpa using hk
    simp [currency_column_to_numeric, DF.getCol, List.lookup, CastArg.truthy,
      CastArg.isDict, mapE, _currency_column_to_numeric, hk2, hv]
  · intro cells v hv
    have hget : DF.getCol ⟨[("a", cells.map PyVal.vStr)]⟩ "a"
        = some (cells.map PyVal.vStr) := by
      simp [DF.getCol, List.lookup]
    have h1 : mapE (fun x => _currency_column_to_numeric x .noneA) (cells.map PyVal.vStr)
        = .ok (cells.map step1Cell) :=
      mapE_ok_of_map _ _ _ (fun s => ccn_str_noneA s) cells
    have h2 : mapE _replace_empty_string_with_none (cells.map step1Cell)
        = .ok (cells.map step12Cell) :=
      mapE_ok_of_map _ _ _ repl_empty_step1 cells
    simp [currency_column_to_numeric, hget, h1, h2, hv, CastArg.truthy, CastArg.isDict]

/-- C4 witness: all three amended error sites at concrete inputs. -/
theorem spec_c4_amended_witness :
    (currency_column_to_numeric ⟨[("a", [PyVal.vStr "1.00"])]⟩ "a" none
        (.other true) none false
      = (.error (.typeError "cast_non_numeric should be one of dict"),
         ⟨[("a", [PyVal.vStr "1.00"])]⟩)) ∧
    (currency_column_to_numeric ⟨[("a", [PyVal.vStr "REPAY"])]⟩ "a" none
        (.dict [("REPAY", PyVal.vStr "x")]) none false
      = (.error (.typeError "cast value should be one of int, float"),
         ⟨[("a", [PyVal.vStr "REPAY"])]⟩)) ∧
    (currency_column_to_numeric ⟨[("a", [PyVal.vStr "1.00"])]⟩ "a" none
        .noneA (some (PyVal.vStr "z")) false
      = (.error (.typeError "fill_all_non_numeric should be one of int, float"),
         ⟨[("a", [PyVal.vStr "1.00"])]⟩)) :=
  ⟨spec_c4_amended.1 ["1.00"],
   spec_c4_amended.2.1 "REPAY" (PyVal.vStr "x") (by decide) rfl,
   spec_c4_amended.2.2 ["1.00"] (PyVal.vStr "z") rfl⟩

/-- C5 counterexample: accounting mode does not remove currency
symbols, so on the column ["$1.00", "($2.50)", "-"] the call raises a
`ValueError` at "$1.00" instead of returning [1.00, -2.50, 0.00]. -/
theorem spec_c5_cex :
    currency_column_to_numeric
      ⟨[("a", [PyVal.vStr "$1.00", PyVal.vStr "($2.50)", PyVal.vStr "-"])]⟩
      "a" (some "accounting") .noneA none false
    = (.error (.valueError "$1.00"),
       ⟨[("a", [PyVal.vStr "$1.00", PyVal.vStr "($2.50)", PyVal.vStr "-"])]⟩) := by
  decide

/-- C5 (corrected): in accounting mode each cell is stripped of
whitespace and commas, parenthesis notation becomes a leading minus,
and a bare minus becomes zero — "(12.50)" parses to -12.50, "-" to
0.00, "1,234.56" to 1234.56 (as `mkRat` values) — but currency
symbols are not removed, so only the symbol-free column
["1.00", "(2.50)", "-"] maps to [1.00, -2.50, 0.00] (the accounting
branch also mutates the caller's dataframe in place, hence the
post-call state equals the result). -/
theorem spec_c5_amended :
    _clean_accounting_column (.vStr "(12.50)") = .ok (.vFloat (mkRat (-25) 2)) ∧
    _clean_accounting_column (.vStr "-") = .ok (.vFloat 0) ∧
    _clean_accounting_column (.vStr "1,234.56") = .ok (.vFloat (mkRat 30864 25)) ∧
    currency_column_to_numeric
      ⟨[("a", [PyVal.vStr "1.00", PyVal.vStr "(2.50)", PyVal.vStr "-"])]⟩
      "a" (some "accounting") .noneA none false
    = (.ok ⟨[("a", [PyVal.vFloat 1, PyVal.vFloat (mkRat (-5) 2), PyVal.vFloat 0])]⟩,
       ⟨[("a", [PyVal.vFloat 1, PyVal.vFloat (mkRat (-5) 2), PyVal.vFloat 0])]⟩) := by
  refine ⟨by decide, by decide, by decide, by decide⟩

/-- C6 counterexample: the cell "1.2.3" contains only digits and
periods, yet standard-mode coercion raises a `ValueError` at the
final numeric conversion instead of parsing it — refuting "parses the
remaining characters unchanged as a floating-point number without
raising" for every such cell. -/
theorem spec_c6_cex :
    (currency_column_to_numeric ⟨[("a", [PyVal.vStr "1.2.3"])]⟩ "a" none
      .noneA none false).1
    = .error (.valueError "1.2.3") := by
  decide

/-- C6 (corrected): for a cell of digits, minus signs, periods,
currency symbols and commas whose retained characters form a
well-formed numeral (its filtered candidate parses), standard-mode
coercion strips symbols and commas and yields that number without
raising; candidates that do not form a numeral may instead raise. -/
theorem spec_c6_amended (s : String) (q : ℚ)
    (hchars : ∀ c ∈ s.data, c.isDigit ∨ c ∈ currencySymbolChars ∨ c ∈ ['-', '.', ','])
    (hq : parseFloat (keepAcceptableChars s) = some q) :
    currency_column_to_numeric ⟨[("a", [PyVal.vStr s])]⟩ "a" none .noneA none false
    = (.ok ⟨[("a", [PyVal.vFloat q])]⟩, ⟨[("a", [PyVal.vStr s])]⟩) := by
  have hkeep : ¬ keepAcceptableChars s = "" := by
    intro h
    rw [h] at hq
    rw [show parseFloat "" = none from rfl] at hq
    simp at hq
  have hs : ¬ s = "" := by
    intro h
    subst h
    exact hkeep rfl
  have hs2 : (s == "") = false := by simpa using hs
  have hk2 : (keepAcceptableChars s == "") = false := by simpa using hkeep
  have hsent : (PyVal.vStr (keepAcceptableChars s) == PyVal.vStr "ORIGINAL_NA") = false := by
    simp [keep_ne_sentinel s]
  simp [currency_column_to_numeric, DF.getCol, List.lookup, CastArg.truthy,
    CastArg.isDict, mapE, _currency_column_to_numeric, hs2,
    _replace_empty_string_with_none, hk2, currencyFinish,
    _replace_original_empty_string_with_none, hsent, to_numeric_cell, hq, DF.setCol]

/-- C6 witness: "$23.00" qualifies and comes out as 23.0. -/
theorem spec_c6_amended_witness :
    (∀ c ∈ "$23.00".data, c.isDigit ∨ c ∈ currencySymbolChars ∨ c ∈ ['-', '.', ',']) ∧
    parseFloat (keepAcceptableChars "$23.00") = some 23 ∧
    currency_column_to_numeric ⟨[("a", [PyVal.vStr "$23.00"])]⟩ "a" none .noneA none false
    = (.ok ⟨[("a", [PyVal.vFloat 23])]⟩, ⟨[("a", [PyVal.vStr "$23.00"])]⟩) :=
  ⟨by decide, by decide, spec_c6_amended "$23.00" 23 (by decide) (by decide)⟩

/-- C7 counterexample: standard-mode coercion on ["1.00"] succeeds
and yields the numeric column [1.0], but re-applying the coercion to
that output column raises a `TypeError` (the per-cell pass calls
`len()` on a float) — so applying the coercion to its own output does
not return an identical column, refuting the idempotence claim. -/
theorem spec_c7_cex :
    currency_column_to_numeric ⟨[("a", [PyVal.vStr "1.00"])]⟩ "a" none .noneA none false
      = (.ok ⟨[("a", [PyVal.vFloat 1])]⟩, ⟨[("a", [PyVal.vStr "1.00"])]⟩)
    ∧ (currency_column_to_numeric ⟨[("a", [PyVal.vFloat 1])]⟩ "a" none
        .noneA none false).1
      = .error (.typeError "object has no len") := by
  refine ⟨by decide, by decide⟩

/-- C7 (corrected): standard-mode coercion on a column that is
already numeric (float cells) raises a `TypeError` for every nonempty
column, because the per-cell pass calls `len()` on each cell; the
coercion therefore cannot be re-applied to its own numeric output and
is not idempotent in that sense. -/
theorem spec_c7_amended (l : List ℚ) (h : l ≠ []) :
    (currency_column_to_numeric ⟨[("a", l.map PyVal.vFloat)]⟩ "a" none
      .noneA none false).1
    = .error (.typeError "object has no len") := by
  cases l with
  | nil => exact absurd rfl h
  | cons q t =>
    simp [currency_column_to_numeric, DF.getCol, List.lookup, CastArg.truthy,
      CastArg.isDict, mapE, _currency_column_to_numeric]

/-- C7 witness: the singleton numeric column [1.0]. -/
theorem spec_c7_amended_witness :
    ([(1 : ℚ)] ≠ []) ∧
    (currency_column_to_numeric ⟨[("a", [(1 : ℚ)].map PyVal.vFloat)]⟩ "a" none
      .noneA none false).1
    = .error (.typeError "object has no len") :=
  ⟨by simp, spec_c7_amended [1] (by simp)⟩

/-- C8 (confirmed): for every dataframe and every column name absent
from it, the call fails with the missing-column error naming that
column (the pandas `KeyError`, the spec's `MissingColumnError`),
regardless of all other configuration arguments, and the dataframe is
untouched. -/
theorem spec_c8_missing_col (df : DF) (col : String) (type : Option String)
    (cast : CastArg) (fill : Option PyVal) (remove : Bool)
    (h : DF.getCol df col = none) :
    currency_column_to_numeric df col type cast fill remove
    = (.error (.keyError col), df) := by
  unfold currency_column_to_numeric
  rw [h]

/-- C8 witness: the empty dataframe with an aggressive configuration. -/
theorem spec_c8_missing_col_witness :
    DF.getCol ⟨[]⟩ "a" = none ∧
    currency_column_to_numeric ⟨[]⟩ "a" (some "accounting") (.other true)
      (some (PyVal.vStr "z")) true
    = (.error (.keyError "a"), ⟨[]⟩) :=
  ⟨rfl, spec_c8_missing_col ⟨[]⟩ "a" (some "accounting") (.other true)
    (some (PyVal.vStr "z")) true rfl⟩

/-- Every call either leaves the caller's dataframe object unchanged,
or returns it as the successful result (the accounting branch's
in-place update, performed only after the whole column converted). -/
theorem call_state (df : DF) (col : String) (type : Option String)
    (cast : CastArg) (fill : Option PyVal) (remove : Bool) :
    (currency_column_to_numeric df col type cast fill remove).2 = df ∨
    (currency_column_to_numeric df col type cast fill remove).1
      = .ok (currency_column_to_numeric df col type cast fill remove).2 := by
  unfold currency_column_to_numeric currencyFinish
  repeat' split
  all_goals try (left ; rfl)
  all_goals try (right ; rfl)
  all_goals try simp only []
  all_goals (split <;> simp)

/-- C9 (confirmed): whenever the call raises (missing column, invalid
configuration, or an unparseable candidate at the final numeric
conversion), the caller-visible dataframe is left exactly as it was —
no partially transformed column is ever observable. -/
theorem spec_c9_no_mutation (df : DF) (col : String) (type : Option String)
    (cast : CastArg) (fill : Option PyVal) (remove : Bool) (e : PyError)
    (h : (currency_column_to_numeric df col type cast fill remove).1 = .error e) :
    (currency_column_to_numeric df col type cast fill remove).2 = df := by
  rcases call_state df col type cast fill remove with h2 | h2
  · exact h2
  · rw [h] at h2
    simp at h2

/-- C9 witness: a failing call (missing column) with unchanged
dataframe. -/
theorem spec_c9_no_mutation_witness :
    ((currency_column_to_numeric ⟨[]⟩ "a" none .noneA none false).1
      = .error (.keyError "a")) ∧
    (currency_column_to_numeric ⟨[]⟩ "a" none .noneA none false).2 = ⟨[]⟩ :=
  ⟨rfl, spec_c9_no_mutation ⟨[]⟩ "a" none .noneA none false (.keyError "a") rfl⟩

/-- C10 (confirmed): with the empty string as a `cast_non_numeric`
key, an empty-string cell is still treated as originally blank — the
`len(x) == 0` check runs before the mapping lookup — so it becomes
the missing-value marker and the mapping entry (whatever its value)
is never applied. -/
theorem spec_c10_empty_key (v : PyVal) (d : List (String × PyVal)) :
    currency_column_to_numeric ⟨[("a", [PyVal.vStr ""])]⟩ "a" none
      (.dict (("", v) :: d)) none false
    = (.ok ⟨[("a", [PyVal.vNone])]⟩, ⟨[("a", [PyVal.vStr ""])]⟩) := rfl
